import Mathlib

/-!
Verification development for the `analyze_logs` issue-detection pipeline
(`src/handlers/event/analyze_logs/issues.rs`).

The pipeline scans a raw log text with eleven static detector rules and one
stateful rule (`outdated_launcher`) that compares the launcher version found
in the log against the latest known release, resolved through an optional
cache collaborator with network fallback.

External effects (cache read, cache write, network fetch) are modelled by an
explicit environment (`Data`) recording each collaborator's outcome, and the
resolution step additionally returns the list of collaborator invocations it
performed, so that cache/network interaction patterns can be stated.
The three regexes of the source are embedded as explicit leftmost-match,
greedy scanning functions over the log's character list, following the
semantics of the `regex` crate for these patterns (`.` matches any character
but `\n`; repetition is greedy; the reported match is the leftmost one).
-/

namespace Refraction

/-- Errors of the external collaborators carry only a message. -/
abbrev Err := String

/-- `type Issue = Option<(String, String)>`: an optional (title, description). -/
abbrev Issue := Option (String × String)

/-- `hasInfix needle hay`: `needle` occurs as a contiguous run inside `hay`. -/
def hasInfix (needle : List Char) : List Char → Bool
  | [] => needle.isPrefixOf []
  | c :: rest => needle.isPrefixOf (c :: rest) || hasInfix needle rest

/-- Rust `str::contains`: `strContains log needle` holds iff `needle` occurs
as a contiguous substring of `log`. -/
def strContains (log needle : String) : Bool :=
  hasInfix needle.data log.data

/-- Split a character list on a separator character (the groups, in order;
an empty input yields one empty group, as Rust `str::split` does). -/
def splitOnChar (sep : Char) : List Char → List (List Char)
  | [] => [[]]
  | c :: rest =>
    match splitOnChar sep rest with
    | [] => [[c]]
    | g :: gs => if c = sep then [] :: g :: gs else (c :: g) :: gs

/-- Rust `str::split('.')`. -/
def splitDot (cs : List Char) : List (List Char) :=
  splitOnChar '.' cs

/-- Parse one dot-separated group as an unsigned integer: defined exactly on
nonempty all-digit groups, as Rust `str::parse::<u32>().ok()` used by
`semver_split` is. -/
def parseGroup (g : List Char) : Option Nat :=
  if !g.isEmpty && g.all Char.isDigit then
    some (g.foldl (fun n c => 10 * n + (c.toNat - Char.toNat '0')) 0)
  else
    none

/-- Modelled from the spec: `crate::utils::semver_split` is not part of the
sources given here; §4.2 specifies it as "splits a string on the `.`
separator into substrings, parses each as an unsigned integer", skipping
non-numeric groups and never yielding a spurious leading entry, and §3/§8
fix the result to the first two components ("5.12.3" → [5,12]: only the
first two dot-separated groups participate in comparison). -/
def semver_split (version : String) : List Nat :=
  ((splitDot version.data).filterMap parseGroup).take 2

/-- Outcome of running a piece of fallible code: normal result, propagated
collaborator error (Rust `Err` bubbled by `?`), or a panic (an out-of-bounds
slice index). -/
inductive RunOutcome (α : Type) where
  | ok (a : α)
  | error (e : Err)
  | panic
  deriving DecidableEq, Repr

/-- The version comparison of `outdated_launcher` (the condition of the `if`
at the end), with Rust's left-to-right short-circuit evaluation of
`||`/`&&` made explicit: the latest version's parts are indexed at 0 (and
at 1 when the first components are equal) without any bounds check, so the
result is `none` (a panic) when such an index is out of bounds, and
`some b` with `b` the value of the condition otherwise.  The log version's
parts are only indexed after the `len() != 2` test has failed, so that side
never goes out of bounds. -/
def compareOutdated (logParts latestParts : List Nat) : Option Bool :=
  if logParts.length ≠ 2 then
    some true
  else
    match latestParts[0]? with
    | none => none
    | some t0 =>
      if logParts.getD 0 0 < t0 then
        some true
      else if logParts.getD 0 0 = t0 then
        match latestParts[1]? with
        | none => none
        | some t1 => some (logParts.getD 1 0 < t1)
      else
        some false

/-- Lines 212–227 of `outdated_launcher`: split both versions, compare, and
on "outdated" build the issue interpolating both literal version strings. -/
def checkVersion (log_version latest_version : String) : RunOutcome Issue :=
  match compareOutdated (semver_split log_version) (semver_split latest_version) with
  | none => .panic
  | some true =>
    .ok (some ("Outdated Prism Launcher",
      "Your installed version is " ++ log_version ++
      ", while the newest version is " ++ latest_version ++
      ".\nPlease update; for more info see https://prismlauncher.org/download/"))
  | some false => .ok none

/-- Leftmost-match scanning: try the matcher at every start position of the
text, left to right, and return the first success (the `regex` crate reports
the match whose start is leftmost). -/
def scanFirst {α : Type} (f : List Char → Option α) : List Char → Option α
  | [] => f []
  | c :: cs =>
    match f (c :: cs) with
    | some a => some a
    | none => scanFirst f cs

/-- Greedy tail of `(.+)'[\r\n]`: the longest (possibly empty) prefix `p` of
the input that contains no `'\n'` (`.` matches every character except
newline, so `'\r'` may occur inside it) and is followed immediately by a
`'\''` and then a carriage return or newline; `none` when no such prefix
exists. -/
def capEndQuote : List Char → Option (List Char)
  | [] => none
  | c :: rest =>
    if c = '\n' then none
    else
      match capEndQuote rest with
      | some p => some (c :: p)
      | none =>
        if c = '\'' then
          match rest with
          | r :: _ => if r = '\r' ∨ r = '\n' then some [] else none
          | [] => none
        else none

/-- Greedy tail of `(.+)[\r\n]`: the longest (possibly empty) prefix with no
`'\n'` that is followed immediately by a carriage return or newline. -/
def capEndLine : List Char → Option (List Char)
  | [] => none
  | c :: rest =>
    if c = '\n' then some []
    else
      match capEndLine rest with
      | some p => some (c :: p)
      | none => if c = '\r' then some [] else none

/-- The regex `Unrecognized VM option '(.+)'[\r\n]` of `java_option`:
leftmost match, greedy nonempty capture. -/
def vmOptionCapture (log : String) : Option String :=
  let lit := "Unrecognized VM option '".data
  scanFirst (fun cs =>
    if lit.isPrefixOf cs then
      match capEndQuote (cs.drop lit.length) with
      | some p => if p.isEmpty then none else some (String.mk p)
      | none => none
    else none) log.data

/-- The regex `Unrecognized option: (.+)[\r\n]` of `java_option`:
leftmost match, greedy nonempty capture. -/
def unrecognizedOptionCapture (log : String) : Option String :=
  let lit := "Unrecognized option: ".data
  scanFirst (fun cs =>
    if lit.isPrefixOf cs then
      match capEndLine (cs.drop lit.length) with
      | some p => if p.isEmpty then none else some (String.mk p)
      | none => none
    else none) log.data

/-- After the banner literal, the version pattern
`((?:([0-9]+)\.)?([0-9]+)\.([0-9]+))` of `OUTDATED_LAUNCHER_REGEX`: digit
runs are maximal, the leading `(?:([0-9]+)\.)?` group is tried greedily and
dropped again (backtracking) when no `[0-9]+\.[0-9]+` follows it, so the
capture is `a.b.c` when three dot-separated digit runs are present and
`a.b` when only two are. -/
def bannerVersionAt (cs : List Char) : Option String :=
  let a := cs.takeWhile Char.isDigit
  if a.isEmpty then none
  else
    match cs.drop a.length with
    | '.' :: r1 =>
      let b := r1.takeWhile Char.isDigit
      if b.isEmpty then none
      else
        match r1.drop b.length with
        | '.' :: r2 =>
          let c := r2.takeWhile Char.isDigit
          if c.isEmpty then some (String.mk (a ++ '.' :: b))
          else some (String.mk (a ++ '.' :: b ++ '.' :: c))
        | _ => some (String.mk (a ++ '.' :: b))
    | _ => none

/-- The regex `Prism Launcher version: ((?:([0-9]+)\.)?([0-9]+)\.([0-9]+))`
of `outdated_launcher`: leftmost match, capture group 1. -/
def bannerCapture (log : String) : Option String :=
  let lit := "Prism Launcher version: ".data
  scanFirst (fun cs =>
    if lit.isPrefixOf cs then bannerVersionAt (cs.drop lit.length)
    else none) log.data

/-- The regex
`(?m)Please switch to one of the following Java versions for this instance:[\r\n]+(Java version [\d.]+)`
of `wrong_java`: after the literal, one or more CR/LF characters (all of
them — backtracking to a shorter run cannot help, since the capture starts
with `J`), then the literal `Java version ` and a maximal nonempty run of
digits and dots; the capture is `Java version ` plus that run. -/
def switchCapture (log : String) : Option String :=
  let lit := "Please switch to one of the following Java versions for this instance:".data
  let jv := "Java version ".data
  scanFirst (fun cs =>
    if lit.isPrefixOf cs then
      let afterLit := cs.drop lit.length
      let nl := afterLit.takeWhile (fun c => c == '\r' || c == '\n')
      if nl.isEmpty then none
      else
        let rest := afterLit.drop nl.length
        if jv.isPrefixOf rest then
          let digits := (rest.drop jv.length).takeWhile (fun c => c.isDigit || c == '.')
          if digits.isEmpty then none else some (String.mk (jv ++ digits))
        else none
    else none) log.data

/-- `const CLASS_NOT_FOUND: &str` of `fabric_internal`. -/
def CLASS_NOT_FOUND : String := "Caused by: java.lang.ClassNotFoundException: "

/-- Static rule `fabric_internal`. -/
def fabric_internal (log : String) : Issue :=
  let issue := ("Fabric Internal Access",
    "The mod you are using is using fabric internals that are not meant to be used by anything but the loader itself.\n        Those mods break both on Quilt and with fabric updates.\n        If you're using fabric, downgrade your fabric loader could work, on Quilt you can try updating to the latest beta version, but there's nothing much to do unless the mod author stops using them.")
  let errors := [
    CLASS_NOT_FOUND ++ "net.fabricmc.fabric.impl",
    CLASS_NOT_FOUND ++ "net.fabricmc.fabric.mixin",
    CLASS_NOT_FOUND ++ "net.fabricmc.fabric.loader.impl",
    CLASS_NOT_FOUND ++ "net.fabricmc.fabric.loader.mixin",
    "org.quiltmc.loader.impl.FormattedException: java.lang.NoSuchMethodError:"]
  let found := errors.any (fun e => strContains log e)
  if found then some issue else none

/-- Static rule `flatpak_nvidia`. -/
def flatpak_nvidia (log : String) : Issue :=
  let issue := ("Outdated Nvidia Flatpak Driver",
    "The Nvidia driver for flatpak is outdated.\n        Please run `flatpak update` to fix this issue. If that does not solve it, please wait until the driver is added to Flathub and run it again.")
  let found := strContains log "org.lwjgl.LWJGLException: Could not choose GLX13 config"
    || strContains log "GLFW error 65545: GLX: Failed to find a suitable GLXFBConfig"
  if found then some issue else none

/-- Static rule `forge_java`. -/
def forge_java (log : String) : Issue :=
  let issue := ("Forge Java Bug",
    "Old versions of Forge crash with Java 8u321+.\n            To fix this, update forge to the latest version via the Versions tab\n            (right click on Forge, click Change Version, and choose the latest one)\n            Alternatively, you can download 8u312 or lower. See [archive](https://github.com/adoptium/temurin8-binaries/releases/tag/jdk8u312-b07)")
  let found := strContains log "java.lang.NoSuchMethodError: sun.security.util.ManifestEntryVerifier.<init>(Ljava/util/jar/Manifest;)V"
  if found then some issue else none

/-- Static rule `intel_hd`. -/
def intel_hd (log : String) : Issue :=
  let issue := ("Intel HD Windows 10",
    "Your drivers don't support windows 10 officially\n        See https://prismlauncher.org/wiki/getting-started/installing-java/#a-note-about-intel-hd-20003000-on-windows-10 for more info")
  let found := strContains log "org.lwjgl.LWJGLException: Pixel format not accelerated"
  if found then some issue else none

/-- Static rule `java_option`: first the VM-option regex with its
special-cased title for the captured option `UseShenandoahGC`, then the
generic unrecognized-option regex. -/
def java_option (log : String) : Issue :=
  match vmOptionCapture log with
  | some cap =>
    some ((if cap = "UseShenandoahGC" then "Wrong Java Arguments"
           else "Java 8 and below don't support ShenandoahGC"),
      "Remove `-XX:" ++ cap ++ "` from your Java arguments")
  | none =>
    match unrecognizedOptionCapture log with
    | some cap =>
      some ("Wrong Java Arguments", "Remove `" ++ cap ++ "` from your Java arguments")
    | none => none

/-- Static rule `lwjgl_2_java_9`. -/
def lwjgl_2_java_9 (log : String) : Issue :=
  let issue := ("Linux: crash with pre-1.13 and Java 9+",
    "Using pre-1.13 (which uses LWJGL 2) with Java 9 or later usually causes a crash. Switching to Java 8 or below will fix your issue.\n        Alternatively, you can use [Temurin](https://adoptium.net/temurin/releases). However, multiplayer will not work in versions from 1.8 to 1.11.\n        For more information, type `/tag java`.")
  let found := strContains log "check_match: Assertion `version->filename == NULL || ! _dl_name_match_p (version->filename, map)' failed!"
  if found then some issue else none

/-- Static rule `macos_ns`. -/
def macos_ns (log : String) : Issue :=
  let issue := ("MacOS NSInternalInconsistencyException",
    "You need to downgrade your Java 8 version. See https://prismlauncher.org/wiki/getting-started/installing-java/#older-minecraft-on-macos")
  let found := strContains log "Terminating app due to uncaught exception 'NSInternalInconsistencyException"
  if found then some issue else none

/-- Static rule `oom`. -/
def oom (log : String) : Issue :=
  let issue := ("Out of Memory",
    "Allocating more RAM to your instance could help prevent this crash.")
  let found := strContains log "java.lang.OutOfMemoryError" || strContains log "-805306369"
  if found then some issue else none

/-- Static rule `optinotfine`. -/
def optinotfine (log : String) : Issue :=
  let issue := ("Potential OptiFine Incompatibilities",
    "OptiFine is known to cause problems when paired with other mods. Try to disable OptiFine and see if the issue persists.\n        Check `/tag optifine` for more info & some typically more compatible alternatives you can use.")
  let found := strContains log "[✔] OptiFine_" || strContains log "[✔] optifabric-"
  if found then some issue else none

/-- Static rule `pre_1_12_native_transport_java_9`. -/
def pre_1_12_native_transport_java_9 (log : String) : Issue :=
  let issue := ("Linux: broken multiplayer with 1.8-1.11 and Java 9+",
    "These versions of Minecraft use an outdated version of Netty which does not properly support Java 9.\n\nSwitching to Java 8 or below will fix this issue. For more information, type `/tag java`.\n\nIf you must use a newer version, do the following:\n- Open `options.txt` (in the main window Edit -> Open .minecraft) and change.\n- Find `useNativeTransport:true` and change it to `useNativeTransport:false`.\nNote: whilst Netty was introduced in 1.7, this option did not exist which is why the issue was not present.")
  let found := strContains log "java.lang.RuntimeException: Unable to access address of buffer\n\tat io.netty.channel.epoll"
  if found then some issue else none

/-- Static rule `wrong_java`: first the switch-version regex, then the
compatibility-check-skipped substring. -/
def wrong_java (log : String) : Issue :=
  match switchCapture log with
  | some cap =>
    let versions := String.intercalate ", " ((splitOnChar '\n' cap.data).map String.mk)
    some ("Wrong Java Version",
      "Please switch to one of the following: `" ++ versions ++ "`\nFor more information, type `/tag java`")
  | none =>
    let issue := ("Java compatibility check skipped",
      "The Java major version may not work with your Minecraft instance. Please switch to a compatible version")
    if strContains log "Java major version is incompatible. Things might break." then some issue
    else none

/-- One invocation of an external collaborator during version resolution. -/
inductive Ev where
  | cacheRead
  | networkFetch
  | cacheWrite (version : String)
  deriving DecidableEq, Repr

/-- The cache collaborator (`data.storage`), modelled by the outcomes of its
two operations in the state at hand: `launcher_version` is the result a read
returns, `cache_launcher_version v` the result writing `v` returns. -/
structure Storage where
  launcher_version : Except Err String
  cache_launcher_version : String → Except Err Unit

/-- The external state `&Data` carried by the pipeline: `octocrab` is
represented by the outcome that `api::github::get_latest_prism_version`
produces on it, and `storage` is the optional cache collaborator. -/
structure Data where
  octocrab : Except Err String
  storage : Option Storage

/-- `api::github::get_latest_prism_version(octocrab)`: the network fetch. -/
def get_latest_prism_version (data : Data) : Except Err String :=
  data.octocrab

/-- Lines 200–211 of `outdated_launcher`: resolve the latest known release
version (cache read, then network fetch with write-back on cache failure;
network only, and no caching, when no storage is configured), together with
the list of collaborator invocations performed, in order.  Rust's `?` makes
a network-fetch error return before any write, and a write error return
with the write already attempted. -/
def resolveLatest (data : Data) : Except Err String × List Ev :=
  match data.storage with
  | some storage =>
    match storage.launcher_version with
    | .ok version => (.ok version, [.cacheRead])
    | .error _ =>
      match get_latest_prism_version data with
      | .error e => (.error e, [.cacheRead, .networkFetch])
      | .ok version =>
        match storage.cache_launcher_version version with
        | .error e => (.error e, [.cacheRead, .networkFetch, .cacheWrite version])
        | .ok _ => (.ok version, [.cacheRead, .networkFetch, .cacheWrite version])
  | none =>
    match get_latest_prism_version data with
    | .ok version => (.ok version, [.networkFetch])
    | .error e => (.error e, [.networkFetch])

/-- `outdated_launcher(log, data)`: extract the version banner (no banner is
no issue, not an error), resolve the latest version, compare. -/
def outdated_launcher (log : String) (data : Data) : RunOutcome Issue :=
  match bannerCapture log with
  | none => .ok none
  | some log_version =>
    match (resolveLatest data).1 with
    | .error e => .error e
    | .ok latest_version => checkVersion log_version latest_version

/-- The fixed rule array of `find`, in declaration order. -/
def staticRules : List (String → Issue) :=
  [fabric_internal, flatpak_nvidia, forge_java, intel_hd, java_option,
   lwjgl_2_java_9, macos_ns, oom, optinotfine,
   pre_1_12_native_transport_java_9, wrong_java]

/-- `issues.iter().filter_map(|issue| issue(log)).collect()`. -/
def staticIssues (log : String) : List (String × String) :=
  staticRules.filterMap (fun rule => rule log)

/-- `find(log, data)`: all static-rule issues in declaration order, then the
outdated-launcher issue if any; an error of `outdated_launcher` is
propagated by `?` and discards the static-rule issues. -/
def find (log : String) (data : Data) : RunOutcome (List (String × String)) :=
  match outdated_launcher log data with
  | .ok (some issue) => .ok (staticIssues log ++ [issue])
  | .ok none => .ok (staticIssues log)
  | .error e => .error e
  | .panic => .panic

example : semver_split "5.12.3" = [5, 12] := by decide
example : semver_split "5.2" = [5, 2] := by decide
example : semver_split "" = [] := by decide
example : compareOutdated [5, 1] [5, 2] = some true := by decide
example : compareOutdated [5, 2] [5, 1] = some false := by decide
example : compareOutdated [5, 2] [] = none := by decide
example : checkVersion "5.2.0" "5.1.9" = .ok none := by decide
example : strContains "hello world" "lo wo" = true := by decide
example : strContains "hello" "world" = false := by decide
example : vmOptionCapture "Unrecognized VM option 'UseShenandoahGC'\n" = some "UseShenandoahGC" := by decide
example : vmOptionCapture "Unrecognized VM option 'Foo'\r\n" = some "Foo" := by decide
example : vmOptionCapture "Unrecognized VM option 'Foo'" = none := by decide
example : unrecognizedOptionCapture "Unrecognized option: --bar\nmore" = some "--bar" := by decide
example : bannerCapture "a Prism Launcher version: 5.1.2 b" = some "5.1.2" := by decide
example : bannerCapture "Prism Launcher version: 8.4!" = some "8.4" := by decide
example : bannerCapture "Prism Launcher version: abc" = none := by decide
example : switchCapture "Please switch to one of the following Java versions for this instance:\r\nJava version 17.0.3\n" = some "Java version 17.0.3" := by decide
example : java_option "x Unrecognized VM option 'UseShenandoahGC'\ny" =
  some ("Wrong Java Arguments", "Remove `-XX:UseShenandoahGC` from your Java arguments") := by decide
example : java_option "x Unrecognized VM option 'AggressiveOpts'\ny" =
  some ("Java 8 and below don't support ShenandoahGC", "Remove `-XX:AggressiveOpts` from your Java arguments") := by decide
example : wrong_java "Please switch to one of the following Java versions for this instance:\nJava version 17.0.3\n" =
  some ("Wrong Java Version", "Please switch to one of the following: `Java version 17.0.3`\nFor more information, type `/tag java`") := by decide
example : staticIssues "" = [] := by decide
example :
    find "Prism Launcher version: 5.1.2\n" (Data.mk (.ok "9.9") none) =
      .ok [("Outdated Prism Launcher",
        "Your installed version is 5.1.2, while the newest version is 9.9.\nPlease update; for more info see https://prismlauncher.org/download/")] := by
  decide
example :
    find "Prism Launcher version: 9.9\n" (Data.mk (.error "net down") none) =
      .error "net down" := by decide
example :
    find "hello" (Data.mk (.error "net down") none) = .ok [] := by decide

/-- When the latest version has at least two parts, the comparison never
reaches an out-of-bounds index. -/
theorem compareOutdated_isSome_of_cons₂ (lp : List Nat) (t0 t1 : Nat) (rest : List Nat) :
    (compareOutdated lp (t0 :: t1 :: rest)).isSome = true := by
  unfold compareOutdated
  split
  · rfl
  · simp only [List.getElem?_cons_zero, List.getElem?_cons_succ]
    split
    · rfl
    · split <;> rfl

/-- Characterization of the outdated condition when the latest version has
at least two parts: the source's short-circuit `||`/`&&` chain holds iff
the corresponding disjunction does. -/
theorem compareOutdated_eq_some_true_iff (lp : List Nat) (t0 t1 : Nat) (rest : List Nat) :
    compareOutdated lp (t0 :: t1 :: rest) = some true ↔
      (lp.length ≠ 2 ∨ lp.getD 0 0 < t0 ∨ (lp.getD 0 0 = t0 ∧ lp.getD 1 0 < t1)) := by
  unfold compareOutdated
  simp only [List.getD_eq_getElem?_getD]
  split
  · next hl => simp [hl]
  · next hl =>
    simp only [List.getElem?_cons_zero, List.getElem?_cons_succ]
    split
    · next h0 => simp [hl, h0]
    · next h0 =>
      split
      · next he => simp [hl, h0, he]
      · next he => simp [hl, h0, he]

/-- C1: given the banner-extracted log version and the resolved latest
version (whose split has the two components the comparison reads), the
'Outdated Prism Launcher' issue is produced iff the log version's component
count differs from 2, or its first component is below the latest's, or the
first components are equal and its second component is below the latest's;
"5.1.2" against "5.2.0" yields an issue whose description contains both
literals, and "5.2.0" against "5.1.9" yields no issue. -/
theorem outdated_version_rule :
    (∀ lv latest : String, 2 ≤ (semver_split latest).length →
      ((∃ d, checkVersion lv latest = .ok (some ("Outdated Prism Launcher", d))) ↔
        ((semver_split lv).length ≠ 2 ∨
         (semver_split lv).getD 0 0 < (semver_split latest).getD 0 0 ∨
         ((semver_split lv).getD 0 0 = (semver_split latest).getD 0 0 ∧
          (semver_split lv).getD 1 0 < (semver_split latest).getD 1 0)))) ∧
    checkVersion "5.1.2" "5.2.0" =
      .ok (some ("Outdated Prism Launcher",
        "Your installed version is 5.1.2, while the newest version is 5.2.0.\nPlease update; for more info see https://prismlauncher.org/download/")) ∧
    strContains
      "Your installed version is 5.1.2, while the newest version is 5.2.0.\nPlease update; for more info see https://prismlauncher.org/download/"
      "5.1.2" = true ∧
    strContains
      "Your installed version is 5.1.2, while the newest version is 5.2.0.\nPlease update; for more info see https://prismlauncher.org/download/"
      "5.2.0" = true ∧
    checkVersion "5.2.0" "5.1.9" = .ok none := by
  refine ⟨?_, by decide, by decide, by decide, by decide⟩
  intro lv latest h
  obtain ⟨t0, t1, rest, hsp⟩ :
      ∃ t0 t1 rest, semver_split latest = t0 :: t1 :: rest := by
    rcases hq : semver_split latest with _ | ⟨t0, _ | ⟨t1, rest⟩⟩
    · rw [hq] at h
      simp at h
    · rw [hq] at h
      simp at h
    · exact ⟨t0, t1, rest, rfl⟩
  rw [hsp]
  simp only [List.getD_cons_zero, List.getD_cons_succ]
  constructor
  · rintro ⟨d, hd⟩
    rcases hb : compareOutdated (semver_split lv) (semver_split latest) with _ | b
    · rw [hsp] at hb
      have hs := compareOutdated_isSome_of_cons₂ (semver_split lv) t0 t1 rest
      rw [hb] at hs
      simp at hs
    · cases b
      · simp [checkVersion, hb] at hd
      · rw [hsp] at hb
        exact (compareOutdated_eq_some_true_iff (semver_split lv) t0 t1 rest).mp hb
  · intro hcond
    have hb : compareOutdated (semver_split lv) (semver_split latest) = some true := by
      rw [hsp]
      exact (compareOutdated_eq_some_true_iff (semver_split lv) t0 t1 rest).mpr hcond
    have hck : checkVersion lv latest =
        .ok (some ("Outdated Prism Launcher",
          "Your installed version is " ++ lv ++ ", while the newest version is " ++ latest ++
          ".\nPlease update; for more info see https://prismlauncher.org/download/")) := by
      unfold checkVersion
      rw [hb]
    exact ⟨_, hck⟩

theorem outdated_version_rule_witness :
    (∃ d, checkVersion "5.1" "5.2" = .ok (some ("Outdated Prism Launcher", d))) ↔
      ((semver_split "5.1").length ≠ 2 ∨
       (semver_split "5.1").getD 0 0 < (semver_split "5.2").getD 0 0 ∨
       ((semver_split "5.1").getD 0 0 = (semver_split "5.2").getD 0 0 ∧
        (semver_split "5.1").getD 1 0 < (semver_split "5.2").getD 1 0)) :=
  outdated_version_rule.1 "5.1" "5.2" (by decide)

/-- C9: `find` is deterministic — for one log text and one fixed external
state, two invocations yield identical results, element for element. -/
theorem find_deterministic (log : String) (data : Data)
    (r₁ r₂ : RunOutcome (List (String × String)))
    (h₁ : find log data = r₁) (h₂ : find log data = r₂) : r₁ = r₂ :=
  h₁.symm.trans h₂

theorem find_deterministic_witness :
    RunOutcome.ok ([] : List (String × String)) = RunOutcome.ok ([] : List (String × String)) :=
  find_deterministic "hello" (Data.mk (.ok "9.9") none) _ _ (by decide) (by decide)

/-- C7: when the version-banner regex finds no match, the Version Freshness
Checker yields no issue successfully (never an error), and `find` still
returns the static rules' issues. -/
theorem no_banner_no_issue (log : String) (data : Data)
    (h : bannerCapture log = none) :
    outdated_launcher log data = .ok none ∧ find log data = .ok (staticIssues log) := by
  refine ⟨?_, ?_⟩
  · simp [outdated_launcher, h]
  · simp [find, outdated_launcher, h]

theorem no_banner_no_issue_witness :
    outdated_launcher "hello"
        (Data.mk (.error "net down") (some (Storage.mk (.error "miss") (fun _ => .error "boom")))) =
      .ok none ∧
    find "hello"
        (Data.mk (.error "net down") (some (Storage.mk (.error "miss") (fun _ => .error "boom")))) =
      .ok (staticIssues "hello") :=
  no_banner_no_issue "hello" _ (by decide)

/-- C10: the comparison indexes the latest version's parts without a bounds
check, so it is panic-free whenever splitting the latest version yields at
least two components, while a latest version splitting to fewer than two
components (here the empty string) with a log version splitting to exactly
two reaches an out-of-bounds index. -/
theorem compare_unguarded_latest :
    (∀ logParts latestParts : List Nat, 2 ≤ latestParts.length →
      (compareOutdated logParts latestParts).isSome = true) ∧
    (semver_split "5.2").length = 2 ∧
    (semver_split "").length < 2 ∧
    compareOutdated (semver_split "5.2") (semver_split "") = none := by
  refine ⟨?_, by decide, by decide, by decide⟩
  intro logParts latestParts h
  match latestParts, h with
  | t0 :: t1 :: rest, _ =>
    by_cases hl : logParts.length ≠ 2
    · simp [compareOutdated, hl]
    · rcases logParts with _ | ⟨a, _ | ⟨b, t⟩⟩
      · simp at hl
      · simp at hl
      · simp only [compareOutdated, if_neg hl, List.getElem?_cons_zero,
          List.getElem?_cons_succ, Option.getD_some]
        split
        · simp
        · split <;> simp

theorem compare_unguarded_latest_witness :
    (compareOutdated [1, 2] [3, 4]).isSome = true :=
  compare_unguarded_latest.1 [1, 2] [3, 4] (by decide)

/-- C4: in the resolution step, a successful cache read keeps the network
collaborator uninvoked; a failed cache read (with a cache configured) makes
the resolution invoke the network and write the fetched value back through
the cache exactly once; without a cache, the network is invoked and no
cache write occurs. -/
theorem cache_network_discipline (data : Data) (storage : Storage) :
    (∀ version, data.storage = some storage → storage.launcher_version = .ok version →
      Ev.networkFetch ∉ (resolveLatest data).2) ∧
    (∀ e, data.storage = some storage → storage.launcher_version = .error e →
      Ev.networkFetch ∈ (resolveLatest data).2 ∧
      ∀ version, get_latest_prism_version data = .ok version →
        (resolveLatest data).2.count (Ev.cacheWrite version) = 1) ∧
    (data.storage = none →
      Ev.networkFetch ∈ (resolveLatest data).2 ∧
      ∀ version, Ev.cacheWrite version ∉ (resolveLatest data).2) := by
  refine ⟨?_, ?_, ?_⟩
  · intro version hst hread
    simp [resolveLatest, hst, hread]
  · intro e hst hread
    cases hnet : get_latest_prism_version data with
    | error e2 =>
      refine ⟨by simp [resolveLatest, hst, hread, hnet], ?_⟩
      intro version hv
      simp at hv
    | ok fetched =>
      cases hw : storage.cache_launcher_version fetched with
      | error e3 =>
        refine ⟨by simp [resolveLatest, hst, hread, hnet, hw], ?_⟩
        intro version hv
        cases hv
        simp [resolveLatest, hst, hread, hnet, hw, List.count_cons]
      | ok u =>
        refine ⟨by simp [resolveLatest, hst, hread, hnet, hw], ?_⟩
        intro version hv
        cases hv
        simp [resolveLatest, hst, hread, hnet, hw, List.count_cons]
  · intro hst
    cases hnet : get_latest_prism_version data with
    | error e2 => exact ⟨by simp [resolveLatest, hst, hnet], by simp [resolveLatest, hst, hnet]⟩
    | ok fetched => exact ⟨by simp [resolveLatest, hst, hnet], by simp [resolveLatest, hst, hnet]⟩

theorem cache_network_discipline_witness :
    Ev.networkFetch ∉
      (resolveLatest (Data.mk (.ok "9.9") (some (Storage.mk (.ok "8.0") (fun _ => .ok ()))))).2 ∧
    (resolveLatest (Data.mk (.ok "9.9") (some (Storage.mk (.error "miss") (fun _ => .ok ()))))).2.count
        (Ev.cacheWrite "9.9") = 1 ∧
    Ev.networkFetch ∈ (resolveLatest (Data.mk (.ok "9.9") none)).2 ∧
    Ev.cacheWrite "9.9" ∉ (resolveLatest (Data.mk (.ok "9.9") none)).2 := by
  refine ⟨?_, ?_, ?_, ?_⟩
  · exact (cache_network_discipline _ (Storage.mk (.ok "8.0") (fun _ => .ok ()))).1 "8.0" rfl rfl
  · exact (((cache_network_discipline _ (Storage.mk (.error "miss") (fun _ => .ok ()))).2.1
      "miss" rfl rfl).2 "9.9" rfl)
  · exact ((cache_network_discipline (Data.mk (.ok "9.9") none)
      (Storage.mk (.ok "8.0") (fun _ => .ok ()))).2.2 rfl).1
  · exact ((cache_network_discipline (Data.mk (.ok "9.9") none)
      (Storage.mk (.ok "8.0") (fun _ => .ok ()))).2.2 rfl).2 "9.9"

/-- C6: when the cache read fails, the network fetch succeeds, and the
write-back fails, the write failure is propagated as a hard error of the
whole `find` call (the banner being present, so that the resolution step
runs at all). -/
theorem cache_write_failure_hard (log : String) (data : Data) (storage : Storage)
    (e₁ e₂ : Err) (version : String)
    (hst : data.storage = some storage)
    (hread : storage.launcher_version = .error e₁)
    (hnet : get_latest_prism_version data = .ok version)
    (hwrite : storage.cache_launcher_version version = .error e₂)
    (hbanner : (bannerCapture log).isSome = true) :
    find log data = .error e₂ := by
  obtain ⟨v, hv⟩ := Option.isSome_iff_exists.mp hbanner
  simp [find, outdated_launcher, hv, resolveLatest, hst, hread, hnet, hwrite]

theorem cache_write_failure_hard_witness :
    find "Prism Launcher version: 5.0.0\n"
        (Data.mk (.ok "9.9") (some (Storage.mk (.error "miss") (fun _ => .error "boom")))) =
      .error "boom" :=
  cache_write_failure_hard _ _ (Storage.mk (.error "miss") (fun _ => .error "boom"))
    "miss" "boom" "9.9" rfl rfl rfl rfl (by decide)

/-- Auxiliary: a `filterMap` keeps exactly the elements on which the
function fires. -/
theorem length_filterMap_eq_length_filter {α β : Type} (f : α → Option β) (l : List α) :
    (l.filterMap f).length = (l.filter (fun a => (f a).isSome)).length := by
  induction l with
  | nil => rfl
  | cons a t ih => cases hfa : f a <;> simp [List.filterMap_cons, List.filter_cons, hfa, ih]

/-- C2: when `find` succeeds, its output is the static-rule issues in rule
declaration order followed by the version-freshness issue if present, so it
has exactly one entry per triggering rule, at most 12 entries, and the
freshness issue, when present, is the last element. -/
theorem find_ok_shape (log : String) (data : Data) (res : List (String × String))
    (h : find log data = .ok res) :
    ∃ fresh : Issue, outdated_launcher log data = .ok fresh ∧
      res = staticIssues log ++ fresh.toList ∧
      res.length =
        (staticRules.filter (fun rule => (rule log).isSome)).length + fresh.toList.length ∧
      res.length ≤ 12 ∧
      ∀ issue, fresh = some issue → res.getLast? = some issue := by
  have hlen : (staticIssues log).length =
      (staticRules.filter (fun rule => (rule log).isSome)).length :=
    length_filterMap_eq_length_filter _ _
  have hle : (staticIssues log).length ≤ 11 := by
    rw [hlen]
    exact List.length_filter_le _ _
  cases ho : outdated_launcher log data with
  | ok fresh =>
    cases fresh with
    | none =>
      have hres : res = staticIssues log := by
        simp [find, ho] at h
        exact h.symm
      refine ⟨none, rfl, by simp [hres], ?_, ?_, by simp⟩
      · simp [hres, hlen]
      · simp only [hres]
        exact Nat.le_trans hle (by decide)
    | some issue =>
      have hres : res = staticIssues log ++ [issue] := by
        simp [find, ho] at h
        exact h.symm
      refine ⟨some issue, rfl, by simp [hres], ?_, ?_, ?_⟩
      · simp [hres, hlen]
      · simp only [hres, List.length_append, List.length_singleton]
        exact Nat.succ_le_succ hle
      · intro issue' hi
        cases hi
        rw [hres]
        exact List.getLast?_concat _
  | error e => simp [find, ho] at h
  | panic => simp [find, ho] at h

theorem find_ok_shape_witness :
    ∃ fresh : Issue,
      outdated_launcher "hello" (Data.mk (.ok "9.9") none) = .ok fresh ∧
      ([] : List (String × String)) = staticIssues "hello" ++ fresh.toList ∧
      ([] : List (String × String)).length =
        (staticRules.filter (fun rule => (rule "hello").isSome)).length + fresh.toList.length ∧
      ([] : List (String × String)).length ≤ 12 ∧
      ∀ issue, fresh = some issue →
        ([] : List (String × String)).getLast? = some issue :=
  find_ok_shape "hello" (Data.mk (.ok "9.9") none) [] (by decide)

/-- C3: the static rules are infallible (each yields an optional issue on
every log); `find` returns an error iff the resolution step of the Version
Freshness Checker runs (the banner is present) and fails; and on an error
no issue list is returned at all. -/
theorem find_error_policy (log : String) (data : Data) :
    (∀ rule ∈ staticRules, ∃ result : Issue, rule log = result) ∧
    ((∃ e, find log data = .error e) ↔
      ((bannerCapture log).isSome = true ∧ ∃ e, (resolveLatest data).1 = .error e)) ∧
    (∀ e, find log data = .error e → ∀ issues, find log data ≠ .ok issues) := by
  refine ⟨fun rule _ => ⟨rule log, rfl⟩, ?_, ?_⟩
  · cases hb : bannerCapture log with
    | none =>
      have hfind : find log data = .ok (staticIssues log) := by
        simp [find, outdated_launcher, hb]
      simp [hfind, hb]
    | some v =>
      cases hr : (resolveLatest data).1 with
      | error e =>
        have hfind : find log data = .error e := by
          simp [find, outdated_launcher, hb, hr]
        simp [hfind, hb, hr]
      | ok latest =>
        rcases hc : compareOutdated (semver_split v) (semver_split latest) with _ | b
        · have hfind : find log data = .panic := by
            simp [find, outdated_launcher, checkVersion, hb, hr, hc]
          simp [hfind, hr]
        · cases b
          · have hfind : find log data = .ok (staticIssues log) := by
              simp [find, outdated_launcher, checkVersion, hb, hr, hc]
            simp [hfind, hr]
          · have hfind : find log data =
                .ok (staticIssues log ++
                  [("Outdated Prism Launcher",
                    "Your installed version is " ++ v ++ ", while the newest version is " ++
                    latest ++
                    ".\nPlease update; for more info see https://prismlauncher.org/download/")]) := by
              simp [find, outdated_launcher, checkVersion, hb, hr, hc]
            simp [hfind, hr]
  · intro e he issues
    rw [he]
    simp

theorem find_error_policy_witness :
    ∃ e, find "Prism Launcher version: 5.0.0\n" (Data.mk (.error "net down") none) = .error e :=
  (find_error_policy "Prism Launcher version: 5.0.0\n" (Data.mk (.error "net down") none)).2.1.mpr
    ⟨by decide, "net down", rfl⟩

/-- C5 counterexample: a log that does contain
`Unrecognized VM option 'UseShenandoahGC'` followed by a line break, yet
whose produced issue is titled "Java 8 and below don't support
ShenandoahGC", because the regex engine reports the leftmost match and an
earlier VM-option line captures `A`. -/
theorem java_option_title_counterexample :
    strContains
      "Unrecognized VM option 'A'\nUnrecognized VM option 'UseShenandoahGC'\n"
      "Unrecognized VM option 'UseShenandoahGC'\n" = true ∧
    java_option "Unrecognized VM option 'A'\nUnrecognized VM option 'UseShenandoahGC'\n" =
      some ("Java 8 and below don't support ShenandoahGC",
        "Remove `-XX:A` from your Java arguments") ∧
    (java_option "Unrecognized VM option 'A'\nUnrecognized VM option 'UseShenandoahGC'\n").map
        Prod.fst ≠ some "Wrong Java Arguments" :=
  ⟨by decide, by decide, by decide⟩

/-- C5 (amended): the title depends on the option captured by the leftmost
VM-option match — "Wrong Java Arguments" when it is `UseShenandoahGC`,
"Java 8 and below don't support ShenandoahGC" for any other captured
option — and the description interpolates the captured option; in
particular a log consisting of one VM-option line behaves as the original
claim states. -/
theorem java_option_title_rule :
    (∀ log cap, vmOptionCapture log = some cap →
      java_option log =
        some ((if cap = "UseShenandoahGC" then "Wrong Java Arguments"
               else "Java 8 and below don't support ShenandoahGC"),
          "Remove `-XX:" ++ cap ++ "` from your Java arguments")) ∧
    java_option "Unrecognized VM option 'UseShenandoahGC'\n" =
      some ("Wrong Java Arguments", "Remove `-XX:UseShenandoahGC` from your Java arguments") ∧
    java_option "Unrecognized VM option 'Foo'\n" =
      some ("Java 8 and below don't support ShenandoahGC",
        "Remove `-XX:Foo` from your Java arguments") := by
  refine ⟨?_, by decide, by decide⟩
  intro log cap hcap
  simp [java_option, hcap]

theorem java_option_title_rule_witness :
    java_option "a Unrecognized VM option 'UseParallelGC'\r\nb" =
      some ((if "UseParallelGC" = "UseShenandoahGC" then "Wrong Java Arguments"
             else "Java 8 and below don't support ShenandoahGC"),
        "Remove `-XX:" ++ "UseParallelGC" ++ "` from your Java arguments") :=
  java_option_title_rule.1 "a Unrecognized VM option 'UseParallelGC'\r\nb" "UseParallelGC"
    (by decide)

/-- C8: `wrong_java` first tries the Java-version-switch regex and returns
the "Wrong Java Version" issue when it matches; only when it does not match
is the incompatibility substring tested, yielding the "Java compatibility
check skipped" issue; the branches are mutually exclusive, and at most one
issue is produced. -/
theorem wrong_java_branches (log : String) :
    (∀ cap, switchCapture log = some cap →
      wrong_java log =
        some ("Wrong Java Version",
          "Please switch to one of the following: `" ++
            String.intercalate ", " ((splitOnChar '\n' cap.data).map String.mk) ++
            "`\nFor more information, type `/tag java`")) ∧
    (switchCapture log = none →
      strContains log "Java major version is incompatible. Things might break." = true →
      wrong_java log =
        some ("Java compatibility check skipped",
          "The Java major version may not work with your Minecraft instance. Please switch to a compatible version")) ∧
    (switchCapture log = none →
      strContains log "Java major version is incompatible. Things might break." = false →
      wrong_java log = none) ∧
    (∀ cap, switchCapture log = some cap →
      (wrong_java log).map Prod.fst ≠ some "Java compatibility check skipped") := by
  refine ⟨?_, ?_, ?_, ?_⟩
  · intro cap hcap
    simp [wrong_java, hcap]
  · intro hcap hsub
    simp [wrong_java, hcap, hsub]
  · intro hcap hsub
    simp [wrong_java, hcap, hsub]
  · intro cap hcap
    simp [wrong_java, hcap]

theorem wrong_java_branches_witness :
    wrong_java
        "Please switch to one of the following Java versions for this instance:\nJava version 8.0\nJava major version is incompatible. Things might break.\n" =
      some ("Wrong Java Version",
        "Please switch to one of the following: `" ++
          String.intercalate ", "
            ((splitOnChar '\n' "Java version 8.0".data).map String.mk) ++
          "`\nFor more information, type `/tag java`") ∧
    (wrong_java
        "Please switch to one of the following Java versions for this instance:\nJava version 8.0\nJava major version is incompatible. Things might break.\n").map
      Prod.fst ≠ some "Java compatibility check skipped" :=
  ⟨(wrong_java_branches _).1 "Java version 8.0" (by decide),
   (wrong_java_branches _).2.2.2 "Java version 8.0" (by decide)⟩

end Refraction
